import Mathlib

/-!
Verification of the yubaba-AI name-generation service (src/main.py).

The service is a single FastAPI endpoint `POST /api/generate-name` that
validates a non-empty `name`, builds a fixed prompt embedding the name,
calls the Gemini text-generation backend, checks that the reply contains a
parenthesis pair (ASCII or full-width), and returns the trimmed text or an
HTTP error.

The embedding below is shallow: the backend is an explicit function from
the prompt string to an outcome (a reply or a raised exception), the
handler returns `Except HTTPError …` instead of raising, and each handler
run also returns the list of prompts that were sent to the backend, so
that "the backend was (not) invoked" is a provable statement.  Python
string operations (`in`, `strip`) act on the character sequence, so they
are modelled on `String.data`.
-/

/-- Whitespace as recognized by the Python `str.strip` method (characters
whose `str.isspace` is true): ASCII whitespace and the Unicode space
characters. -/
def pyIsSpace (c : Char) : Bool :=
  c.val = 0x09 || c.val = 0x0a || c.val = 0x0b || c.val = 0x0c || c.val = 0x0d ||
  c.val = 0x1c || c.val = 0x1d || c.val = 0x1e || c.val = 0x1f || c.val = 0x20 ||
  c.val = 0x85 || c.val = 0xa0 || c.val = 0x1680 ||
  (0x2000 ≤ c.val && c.val ≤ 0x200a) ||
  c.val = 0x2028 || c.val = 0x2029 || c.val = 0x202f || c.val = 0x205f || c.val = 0x3000

/-- Remove leading and trailing Python whitespace from a character list. -/
def pyStripList (l : List Char) : List Char :=
  ((l.dropWhile pyIsSpace).reverse.dropWhile pyIsSpace).reverse

/-- Python `s.strip()`: the string with leading and trailing whitespace
removed (src/main.py line 91, `response.text.strip()`). -/
def pyStrip (s : String) : String :=
  ⟨pyStripList s.data⟩

/-- Python `c in s` for a single character `c`: membership of the character
in the string (src/main.py lines 94 and 95). -/
def pyContains (s : String) (c : Char) : Bool :=
  s.data.contains c

/-- The parenthesis check of src/main.py lines 94 and 95:
`('(' in new_name and ')' in new_name) or ('（' in new_name and '）' in new_name)`. -/
def hasParenPair (s : String) : Bool :=
  (pyContains s '(' && pyContains s ')') || (pyContains s '（' && pyContains s '）')

/-- The part of the prompt template before the first interpolation of the
input name (src/main.py line 67). -/
def promptHead : String :=
  "あなたは銭婆の姉である湯婆婆です。贅沢な名前「"

/-- The part of the prompt template between the two interpolations of the
input name: the instruction text and the few-shot examples
(src/main.py lines 67 to 82). -/
def promptMid : String :=
  "」を入力されたら、その名前から短く呼びやすい新しい名前を与えてください。新しい名前は、元の名前の漢字一文字（読みは元の名前に近いもの、または音読み）、または作中に登場する「千（セン）」や「ハク」のように非常に短い名前にしてください。新しい短い名前には読み仮名を（）で添えてください。\n\n以下に名前変換の例を示します。\n\n* 入力：山田太郎 → 出力：山（サン）\n* 入力：佐藤花子 → 出力：花（ハナ）\n* 入力：木村美咲 → 出力：咲（サキ）\n* 入力：高橋健太 → 出力：橋（キョウ）\n* 入力：渡辺優子 → 出力：優（ユウ）\n* 入力：萩野千尋 → 出力：千（セン）\n* 入力：伊藤さくら → 出力：藤（トウ）\n* 入力：ニギハヤミコハクヌシ → 出力：ハク（ハク）\n\n入力された名前に基づき、新しい短い名前（読み）のみを返してください。余計な前置きや説明は不要です。\n\n入力："

/-- The part of the prompt template after the second interpolation of the
input name (src/main.py line 83). -/
def promptTail : String :=
  "\n出力："

/-- The f-string prompt of `generate_yubaba_name_gemini`
(src/main.py lines 67 to 83): the template with the input name interpolated
at its two placeholder positions. -/
def prompt (name : String) : String :=
  promptHead ++ name ++ promptMid ++ name ++ promptTail

/-- A Gemini response as used by the handler: its `parts` list (only its
emptiness is inspected, src/main.py line 90) and its `text` accessor
(src/main.py line 91). -/
structure GeminiResponse where
  parts : List String
  text : String
deriving DecidableEq

/-- Outcome of one call to `model.generate_content`: either a response
object, or a raised exception carrying a message. -/
inductive BackendOutcome where
  | reply (r : GeminiResponse)
  | exn (msg : String)
deriving DecidableEq

/-- The backend capability: `model.generate_content`, a function from the
prompt to an outcome. -/
def Backend : Type := String → BackendOutcome

deriving instance DecidableEq for Except

/-- An HTTPException as raised by the handler: status code and detail
string. -/
structure HTTPError where
  status : Nat
  detail : String
deriving DecidableEq

/-- Request model `NameInput` (src/main.py lines 32 and 33). -/
structure NameInput where
  name : String
deriving DecidableEq

/-- Response model `NameOutput` (src/main.py lines 34 and 35). -/
structure NameOutput where
  new_name : String
deriving DecidableEq

/-- Detail of the 400 invalid-input error (src/main.py line 123). -/
def invalidInputDetail : String := "名前が入力されていません。"

/-- Detail of the 500 unexpected-format error (src/main.py line 100). -/
def unexpectedFormatDetail : String := "名前の生成結果が予期せぬ形式です。"

/-- Detail of the 500 empty-response error (src/main.py line 104). -/
def emptyResponseDetail : String := "名前の生成に失敗しました(応答なし)。"

/-- Detail of the 500 upstream-failure error (src/main.py line 110). -/
def upstreamFailureDetail : String := "名前の生成中にサーバーエラーが発生しました。"

/-- Detail of the 500 generic endpoint error (src/main.py line 134). -/
def internalErrorDetail : String := "サーバー内部でエラーが発生しました。"

/-- `generate_yubaba_name_gemini` (src/main.py lines 65 to 113): builds the
prompt, calls the backend, and
  * on a response with a non-empty `parts` list, strips the text and
    returns it when it passes the parenthesis check, else raises the 500
    unexpected-format HTTPException;
  * on a response with an empty `parts` list raises the 500 empty-response
    HTTPException;
  * on any other exception raises the 500 upstream-failure HTTPException
    (the except clause re-raises HTTPExceptions unchanged and wraps every
    other exception, lines 106 to 113).
The second component of the result is the list of prompts sent to the
backend during the call. -/
def generate_yubaba_name_gemini (backend : Backend) (name : String) :
    Except HTTPError String × List String :=
  let p := prompt name
  (match backend p with
   | .reply r =>
     if !r.parts.isEmpty then
       let new_name := pyStrip r.text
       if hasParenPair new_name then
         .ok new_name
       else
         .error ⟨500, unexpectedFormatDetail⟩
     else
       .error ⟨500, emptyResponseDetail⟩
   | .exn _ =>
     .error ⟨500, upstreamFailureDetail⟩,
   [p])

/-- The endpoint handler `create_new_name` (src/main.py lines 117 to 134):
rejects an empty name with the 400 invalid-input HTTPException before any
backend call, otherwise returns the result of
`generate_yubaba_name_gemini` wrapped in `NameOutput` (HTTPExceptions
raised inside are re-raised unchanged, lines 129 to 131).  The second
component is the list of prompts sent to the backend. -/
def create_new_name (backend : Backend) (name_input : NameInput) :
    Except HTTPError NameOutput × List String :=
  if name_input.name = "" then
    (.error ⟨400, invalidInputDetail⟩, [])
  else
    let res := generate_yubaba_name_gemini backend name_input.name
    (match res.1 with
     | .ok n => .ok ⟨n⟩
     | .error e => .error e, res.2)

/-- Detail reported by FastAPI request validation for a missing required
field. -/
def fieldRequiredDetail : String := "Field required"

/-- Models FastAPI/pydantic request-body validation for `NameInput`
(src/main.py lines 32 and 33): `name : str` is a required field, so a
request body without it fails validation and FastAPI answers
422 Unprocessable Entity without ever invoking the route handler; a body
carrying the field produces a `NameInput` for the handler. -/
def parseNameInput (body : Option String) : Except HTTPError NameInput :=
  match body with
  | none => .error ⟨422, fieldRequiredDetail⟩
  | some s => .ok ⟨s⟩

/-- One full request to `POST /api/generate-name`: FastAPI validation of
the body followed by the `create_new_name` handler.  `body` is the `name`
field of the JSON body when present. -/
def handleRequest (backend : Backend) (body : Option String) :
    Except HTTPError NameOutput × List String :=
  match parseNameInput body with
  | .error e => (.error e, [])
  | .ok inp => create_new_name backend inp

/-- Classification of a backend outcome by the failure it produces in the
handler: an exception is an upstream failure, a reply without parts is an
empty response, a reply whose stripped text fails the parenthesis check is
malformed, and `none` is a reply the handler accepts. -/
inductive FailKind where
  | upstream
  | empty
  | malformed
deriving DecidableEq

/-- Which failure, if any, a backend outcome produces in the handler. -/
def failureKind : BackendOutcome → Option FailKind
  | .exn _ => some .upstream
  | .reply r =>
    if r.parts.isEmpty then some .empty
    else if hasParenPair (pyStrip r.text) then none
    else some .malformed

/-- The fixed client-visible detail string for each failure kind. -/
def fixedDetail : FailKind → String
  | .upstream => upstreamFailureDetail
  | .empty => emptyResponseDetail
  | .malformed => unexpectedFormatDetail

/-- Whether the string contains an occurrence of the opening character `o`
followed (strictly later) by an occurrence of the closing character `c`:
an ordered parenthesis pair. -/
def hasOrderedPair (s : String) (o c : Char) : Bool :=
  match s.data.dropWhile (fun a => !(a == o)) with
  | [] => false
  | _ :: rest => rest.contains c

/-! ### Helper lemmas about the Python string model -/

lemma mem_dropWhile_of_mem {p : Char → Bool} {c : Char} (hc : p c = false)
    {l : List Char} (h : c ∈ l) : c ∈ l.dropWhile p := by
  have hsplit := List.takeWhile_append_dropWhile p l
  rcases List.mem_append.mp (hsplit ▸ h) with h1 | h2
  · exact absurd (List.mem_takeWhile_imp h1) (by simp [hc])
  · exact h2

lemma mem_pyStripList_of_mem {c : Char} (hc : pyIsSpace c = false)
    {l : List Char} (h : c ∈ l) : c ∈ pyStripList l := by
  unfold pyStripList
  refine List.mem_reverse.mpr (mem_dropWhile_of_mem hc ?_)
  exact List.mem_reverse.mpr (mem_dropWhile_of_mem hc h)

lemma mem_of_mem_pyStripList {c : Char} {l : List Char}
    (h : c ∈ pyStripList l) : c ∈ l := by
  unfold pyStripList at h
  have h1 := List.mem_reverse.mp h
  have h2 := (List.dropWhile_sublist pyIsSpace).mem h1
  have h3 := List.mem_reverse.mp h2
  exact (List.dropWhile_sublist pyIsSpace).mem h3

lemma pyContains_pyStrip {s : String} {c : Char} (hc : pyIsSpace c = false) :
    pyContains (pyStrip s) c = pyContains s c := by
  unfold pyContains pyStrip
  show (pyStripList s.data).contains c = s.data.contains c
  by_cases h : c ∈ s.data
  · have e1 : (pyStripList s.data).contains c = true :=
      List.elem_iff.mpr (mem_pyStripList_of_mem hc h)
    have e2 : s.data.contains c = true := List.elem_iff.mpr h
    rw [e1, e2]
  · have h2 : c ∉ pyStripList s.data := fun hmem => h (mem_of_mem_pyStripList hmem)
    have e1 : (pyStripList s.data).contains c = false :=
      Bool.eq_false_iff.mpr (fun hx => h2 (List.elem_iff.mp hx))
    have e2 : s.data.contains c = false :=
      Bool.eq_false_iff.mpr (fun hx => h (List.elem_iff.mp hx))
    rw [e1, e2]

/-- Stripping surrounding whitespace does not change the parenthesis
check: none of the four parenthesis characters is whitespace. -/
lemma hasParenPair_pyStrip (s : String) :
    hasParenPair (pyStrip s) = hasParenPair s := by
  unfold hasParenPair
  rw [pyContains_pyStrip (s := s) (c := '(') (by decide),
      pyContains_pyStrip (s := s) (c := ')') (by decide),
      pyContains_pyStrip (s := s) (c := '（') (by decide),
      pyContains_pyStrip (s := s) (c := '）') (by decide)]

/-! ### Branch lemmas for the handler -/

lemma isEmpty_false_of_ne_nil {α : Type} {l : List α} (h : l ≠ []) :
    l.isEmpty = false := by
  cases l with
  | nil => exact absurd rfl h
  | cons a t => rfl

lemma generate_of_exn {b : Backend} {n m : String} (hb : b (prompt n) = .exn m) :
    generate_yubaba_name_gemini b n =
      (.error ⟨500, upstreamFailureDetail⟩, [prompt n]) := by
  simp only [generate_yubaba_name_gemini, hb]

lemma generate_of_reply_empty {b : Backend} {n : String} {r : GeminiResponse}
    (hb : b (prompt n) = .reply r) (hp : r.parts = []) :
    generate_yubaba_name_gemini b n =
      (.error ⟨500, emptyResponseDetail⟩, [prompt n]) := by
  simp only [generate_yubaba_name_gemini, hb, hp]
  rfl

lemma generate_of_reply_bad {b : Backend} {n : String} {r : GeminiResponse}
    (hb : b (prompt n) = .reply r) (hp : r.parts ≠ [])
    (hf : hasParenPair (pyStrip r.text) = false) :
    generate_yubaba_name_gemini b n =
      (.error ⟨500, unexpectedFormatDetail⟩, [prompt n]) := by
  simp only [generate_yubaba_name_gemini, hb, isEmpty_false_of_ne_nil hp, hf]
  rfl

lemma generate_of_reply_ok {b : Backend} {n : String} {r : GeminiResponse}
    (hb : b (prompt n) = .reply r) (hp : r.parts ≠ [])
    (hf : hasParenPair (pyStrip r.text) = true) :
    generate_yubaba_name_gemini b n = (.ok (pyStrip r.text), [prompt n]) := by
  simp only [generate_yubaba_name_gemini, hb, isEmpty_false_of_ne_nil hp, hf]
  rfl

lemma create_eq (b : Backend) (n : String) (hn : n ≠ "") :
    create_new_name b ⟨n⟩ =
      ((generate_yubaba_name_gemini b n).1.map fun s => (⟨s⟩ : NameOutput),
       (generate_yubaba_name_gemini b n).2) := by
  simp only [create_new_name]
  rw [if_neg hn]
  cases hx : (generate_yubaba_name_gemini b n).1 <;> simp [Except.map, hx]

lemma create_of_exn (b : Backend) (n m : String) (hn : n ≠ "")
    (hb : b (prompt n) = .exn m) :
    create_new_name b ⟨n⟩ = (.error ⟨500, upstreamFailureDetail⟩, [prompt n]) := by
  rw [create_eq b n hn, generate_of_exn hb]
  rfl

lemma create_of_reply_empty (b : Backend) (n : String) (r : GeminiResponse)
    (hn : n ≠ "") (hb : b (prompt n) = .reply r) (hp : r.parts = []) :
    create_new_name b ⟨n⟩ = (.error ⟨500, emptyResponseDetail⟩, [prompt n]) := by
  rw [create_eq b n hn, generate_of_reply_empty hb hp]
  rfl

lemma create_of_reply_bad (b : Backend) (n : String) (r : GeminiResponse)
    (hn : n ≠ "") (hb : b (prompt n) = .reply r) (hp : r.parts ≠ [])
    (hf : hasParenPair (pyStrip r.text) = false) :
    create_new_name b ⟨n⟩ = (.error ⟨500, unexpectedFormatDetail⟩, [prompt n]) := by
  rw [create_eq b n hn, generate_of_reply_bad hb hp hf]
  rfl

lemma create_of_reply_ok (b : Backend) (n : String) (r : GeminiResponse)
    (hn : n ≠ "") (hb : b (prompt n) = .reply r) (hp : r.parts ≠ [])
    (hf : hasParenPair (pyStrip r.text) = true) :
    create_new_name b ⟨n⟩ = (.ok ⟨pyStrip r.text⟩, [prompt n]) := by
  rw [create_eq b n hn, generate_of_reply_ok hb hp hf]
  rfl

lemma create_error_of_failureKind (b : Backend) (n : String) (k : FailKind)
    (hn : n ≠ "") (hk : failureKind (b (prompt n)) = some k) :
    (create_new_name b ⟨n⟩).1 = .error ⟨500, fixedDetail k⟩ := by
  cases hb : b (prompt n) with
  | exn m =>
    rw [hb] at hk
    simp only [failureKind, Option.some.injEq] at hk
    rw [create_of_exn b n m hn hb, ← hk]
    rfl
  | reply r =>
    rw [hb] at hk
    by_cases hp : r.parts = []
    · simp only [failureKind, hp, List.isEmpty_nil, if_pos, Option.some.injEq] at hk
      rw [create_of_reply_empty b n r hn hb hp, ← hk]
      rfl
    · cases hf : hasParenPair (pyStrip r.text) with
      | true =>
        simp only [failureKind, isEmpty_false_of_ne_nil hp, hf] at hk
        simp at hk
      | false =>
        simp only [failureKind, isEmpty_false_of_ne_nil hp, hf] at hk
        simp only [Bool.false_eq_true, if_false, Option.some.injEq] at hk
        rw [create_of_reply_bad b n r hn hb hp hf, ← hk]
        rfl

/-! ### Claims -/

/-- Claim C1: for every successful response of `POST /api/generate-name`,
the returned `new_name` string contains a matching parenthesis pair, that
is, both characters of the ASCII pair or both characters of the full-width
pair (the check of src/main.py lines 94 and 95 tests presence of the
characters; their ordering is the subject of the separate claim C8). -/
theorem success_contains_paren_pair (b : Backend) (inp : NameInput)
    (out : NameOutput) (tr : List String)
    (h : create_new_name b inp = (.ok out, tr)) :
    hasParenPair out.new_name = true := by
  obtain ⟨n⟩ := inp
  by_cases hn : n = ""
  · subst hn
    simp [create_new_name] at h
  · cases hb : b (prompt n) with
    | exn m =>
      rw [create_of_exn b n m hn hb] at h
      simp at h
    | reply r =>
      by_cases hp : r.parts = []
      · rw [create_of_reply_empty b n r hn hb hp] at h
        simp at h
      · cases hf : hasParenPair (pyStrip r.text) with
        | false =>
          rw [create_of_reply_bad b n r hn hb hp hf] at h
          simp at h
        | true =>
          rw [create_of_reply_ok b n r hn hb hp hf, Prod.mk.injEq] at h
          obtain ⟨h1, -⟩ := h
          injection h1 with h1
          rw [← h1]
          exact hf

def backendOkC1 : Backend := fun _ => .reply ⟨["山（サン）"], "山（サン）"⟩

set_option maxRecDepth 20000 in
/-- Witness for C1 at the stubbed backend returning 山（サン）. -/
theorem success_contains_paren_pair_witness :
    hasParenPair (NameOutput.mk "山（サン）").new_name = true :=
  success_contains_paren_pair backendOkC1 ⟨"山田太郎"⟩ ⟨"山（サン）"⟩
    [prompt "山田太郎"] (by decide)

/-- Claim C2, amended: a request whose `name` field is the empty string is
answered with the 400 invalid-input error and the backend is never invoked
(empty call trace); a request whose `name` field is missing fails FastAPI
request validation with HTTP 422 — not 400 — and the backend is likewise
never invoked. -/
theorem empty_or_missing_name_rejected (b : Backend) :
    handleRequest b (some "") = (.error ⟨400, invalidInputDetail⟩, []) ∧
    handleRequest b none = (.error ⟨422, fieldRequiredDetail⟩, []) := by
  exact ⟨rfl, rfl⟩

def backendC2 : Backend := fun _ => .reply ⟨["山（サン）"], "山（サン）"⟩

/-- Counterexample to C2 as stated: a request with the `name` field
missing is answered with HTTP 422 (FastAPI validation), not with HTTP 400,
though the backend is indeed not invoked. -/
theorem missing_name_yields_422_not_400 :
    (handleRequest backendC2 none).1 = .error ⟨422, fieldRequiredDetail⟩ ∧
    (handleRequest backendC2 none).2 = [] ∧
    ¬ (handleRequest backendC2 none).1 = .error ⟨400, invalidInputDetail⟩ := by
  refine ⟨rfl, rfl, ?_⟩
  intro hc
  injection hc with hc
  injection hc with hcs hcd
  exact absurd hcs (by decide)

/-- Claim C3: a backend reply whose text contains both characters of the
ASCII parenthesis pair or both characters of the full-width pair is passed
through with surrounding whitespace stripped and otherwise unchanged; at
the stubbed backend returning 山（サン） on input 山田太郎 the output is
exactly 山（サン） (witness below). -/
theorem paren_reply_passed_through (b : Backend) (n : String)
    (r : GeminiResponse) (hn : n ≠ "") (hb : b (prompt n) = .reply r)
    (hp : r.parts ≠ []) (hf : hasParenPair r.text = true) :
    (create_new_name b ⟨n⟩).1 = .ok ⟨pyStrip r.text⟩ := by
  have hf2 : hasParenPair (pyStrip r.text) = true := by
    rw [hasParenPair_pyStrip]
    exact hf
  rw [create_of_reply_ok b n r hn hb hp hf2]

def backendOkC3 : Backend := fun _ => .reply ⟨["山（サン）"], "山（サン）"⟩

/-- Witness for C3: the example of the spec, input 山田太郎 with a stubbed
backend returning 山（サン）, yields exactly 山（サン）. -/
theorem paren_reply_passed_through_witness :
    (create_new_name backendOkC3 ⟨"山田太郎"⟩).1 = .ok ⟨"山（サン）"⟩ := by
  have h := paren_reply_passed_through backendOkC3 "山田太郎"
    ⟨["山（サン）"], "山（サン）"⟩ (by decide) rfl (by decide) (by decide)
  have e : pyStrip "山（サン）" = "山（サン）" := by decide
  rw [h, e]

/-- Claim C4: a backend reply whose text contains neither both ASCII
parenthesis characters nor both full-width parenthesis characters makes
the handler raise the unexpected-format HTTPException with status 500. -/
theorem malformed_reply_unexpected_format (b : Backend) (n : String)
    (r : GeminiResponse) (hn : n ≠ "") (hb : b (prompt n) = .reply r)
    (hp : r.parts ≠ []) (hf : hasParenPair r.text = false) :
    (create_new_name b ⟨n⟩).1 = .error ⟨500, unexpectedFormatDetail⟩ := by
  have hf2 : hasParenPair (pyStrip r.text) = false := by
    rw [hasParenPair_pyStrip]
    exact hf
  rw [create_of_reply_bad b n r hn hb hp hf2]

def backendBadC4 : Backend := fun _ => .reply ⟨["すみません、できません。"], "すみません、できません。"⟩

/-- Witness for C4 at a stubbed backend replying without any parenthesis. -/
theorem malformed_reply_unexpected_format_witness :
    (create_new_name backendBadC4 ⟨"山田太郎"⟩).1 =
      .error ⟨500, unexpectedFormatDetail⟩ :=
  malformed_reply_unexpected_format backendBadC4 "山田太郎"
    ⟨["すみません、できません。"], "すみません、できません。"⟩ (by decide) rfl
    (by decide) (by decide)

/-- Claim C5: a backend response without usable text (empty `parts` list)
makes the handler raise the empty-response HTTPException with status 500,
an error whose detail is distinct from the unexpected-format one. -/
theorem empty_reply_empty_response (b : Backend) (n : String)
    (r : GeminiResponse) (hn : n ≠ "") (hb : b (prompt n) = .reply r)
    (hp : r.parts = []) :
    (create_new_name b ⟨n⟩).1 = .error ⟨500, emptyResponseDetail⟩ ∧
    emptyResponseDetail ≠ unexpectedFormatDetail := by
  refine ⟨?_, by decide⟩
  rw [create_of_reply_empty b n r hn hb hp]

def backendEmptyC5 : Backend := fun _ => .reply ⟨[], ""⟩

/-- Witness for C5 at a stubbed backend replying with no parts. -/
theorem empty_reply_empty_response_witness :
    (create_new_name backendEmptyC5 ⟨"山田太郎"⟩).1 =
      .error ⟨500, emptyResponseDetail⟩ ∧
    emptyResponseDetail ≠ unexpectedFormatDetail :=
  empty_reply_empty_response backendEmptyC5 "山田太郎" ⟨[], ""⟩ (by decide) rfl rfl

/-- Claim C6: an exception raised by the backend call is caught and mapped
to the upstream-failure HTTPException with status 500; the handler always
returns a value of the result type, so no exception escapes to the HTTP
layer unhandled. -/
theorem backend_exception_upstream_failure (b : Backend) (n m : String)
    (hn : n ≠ "") (hb : b (prompt n) = .exn m) :
    (create_new_name b ⟨n⟩).1 = .error ⟨500, upstreamFailureDetail⟩ := by
  rw [create_of_exn b n m hn hb]

def backendExnC6 : Backend := fun _ => .exn "ConnectionError: connection refused"

/-- Witness for C6 at a stubbed backend raising an exception. -/
theorem backend_exception_upstream_failure_witness :
    (create_new_name backendExnC6 ⟨"山田太郎"⟩).1 =
      .error ⟨500, upstreamFailureDetail⟩ :=
  backend_exception_upstream_failure backendExnC6 "山田太郎"
    "ConnectionError: connection refused" (by decide) rfl

/-- Claim C7: for any two runs in which the backend fails with the same
failure kind (exception, empty response, or malformed reply), whatever the
backend reply texts or exception messages are, both runs produce an HTTP
500 whose detail is the same fixed generic message determined by the kind
alone: the client-visible error detail does not depend on the backend
content. -/
theorem error_detail_independent_of_backend (b₁ b₂ : Backend)
    (n₁ n₂ : String) (k : FailKind) (h₁ : n₁ ≠ "") (h₂ : n₂ ≠ "")
    (hk₁ : failureKind (b₁ (prompt n₁)) = some k)
    (hk₂ : failureKind (b₂ (prompt n₂)) = some k) :
    (create_new_name b₁ ⟨n₁⟩).1 = .error ⟨500, fixedDetail k⟩ ∧
    (create_new_name b₂ ⟨n₂⟩).1 = .error ⟨500, fixedDetail k⟩ :=
  ⟨create_error_of_failureKind b₁ n₁ k h₁ hk₁,
   create_error_of_failureKind b₂ n₂ k h₂ hk₂⟩

def backendExnC7a : Backend := fun _ => .exn "DeadlineExceeded: 504"

def backendExnC7b : Backend := fun _ => .exn "ServiceUnavailable: 503"

/-- Witness for C7: two runs with different exception messages both
produce the same fixed upstream-failure detail. -/
theorem error_detail_independent_of_backend_witness :
    (create_new_name backendExnC7a ⟨"太郎"⟩).1 =
      .error ⟨500, fixedDetail .upstream⟩ ∧
    (create_new_name backendExnC7b ⟨"花子"⟩).1 =
      .error ⟨500, fixedDetail .upstream⟩ :=
  error_detail_independent_of_backend backendExnC7a backendExnC7b "太郎" "花子"
    .upstream (by decide) (by decide) rfl rfl

def backendC8 : Backend := fun _ => .reply ⟨["サン)テキスト("], "サン)テキスト("⟩

/-- Claim C8: a backend reply whose text has the closing parenthesis
before the opening one — here サン)テキスト( — passes the format check and
is returned successfully: the check only tests presence of the two
characters, not their order, as the reply contains no ordered ASCII pair
and no ordered full-width pair. -/
theorem reversed_parens_accepted :
    (create_new_name backendC8 ⟨"山田太郎"⟩).1 = .ok ⟨"サン)テキスト("⟩ ∧
    hasOrderedPair "サン)テキスト(" '(' ')' = false ∧
    hasOrderedPair "サン)テキスト(" '（' '）' = false := by
  refine ⟨by decide, by decide, by decide⟩

/-- Claim C9: a backend reply whose text contains an opening parenthesis
of one width and a closing parenthesis, yet neither both ASCII characters
nor both full-width characters, fails the format check and is rejected
with the unexpected-format HTTPException with status 500. -/
theorem mixed_width_pair_rejected (b : Backend) (n : String)
    (r : GeminiResponse) (hn : n ≠ "") (hb : b (prompt n) = .reply r)
    (hp : r.parts ≠ [])
    (_hopen : pyContains r.text '(' = true ∨ pyContains r.text '（' = true)
    (_hclose : pyContains r.text ')' = true ∨ pyContains r.text '）' = true)
    (hf : hasParenPair r.text = false) :
    (create_new_name b ⟨n⟩).1 = .error ⟨500, unexpectedFormatDetail⟩ := by
  have hf2 : hasParenPair (pyStrip r.text) = false := by
    rw [hasParenPair_pyStrip]
    exact hf
  rw [create_of_reply_bad b n r hn hb hp hf2]

def backendMixedC9 : Backend := fun _ => .reply ⟨["山（サン)"], "山（サン)"⟩

/-- Witness for C9 at a stubbed backend replying 山（サン) — a full-width
opening parenthesis with an ASCII closing one. -/
theorem mixed_width_pair_rejected_witness :
    (create_new_name backendMixedC9 ⟨"山田太郎"⟩).1 =
      .error ⟨500, unexpectedFormatDetail⟩ :=
  mixed_width_pair_rejected backendMixedC9 "山田太郎" ⟨["山（サン)"], "山（サン)"⟩
    (by decide) rfl (by decide) (Or.inr (by decide)) (Or.inl (by decide))
    (by decide)

/-- Claim C10: a name consisting only of whitespace characters is not the
empty string, so it passes the non-empty validation — the result is never
the 400 invalid-input error — and the backend is invoked exactly once with
the prompt, which embeds the name at its two interpolation positions. -/
theorem whitespace_name_reaches_backend (b : Backend) (n : String)
    (hn : n ≠ "") (_hws : n.data.all pyIsSpace = true) :
    (create_new_name b ⟨n⟩).2 = [prompt n] ∧
    (create_new_name b ⟨n⟩).1 ≠ .error ⟨400, invalidInputDetail⟩ ∧
    prompt n = promptHead ++ n ++ promptMid ++ n ++ promptTail := by
  refine ⟨?_, ?_, rfl⟩
  · rw [create_eq b n hn]
    rfl
  · rw [create_eq b n hn]
    cases hx : (generate_yubaba_name_gemini b n).1 with
    | ok a =>
      intro hc
      simp only [Except.map] at hc
      exact Except.noConfusion hc
    | error e =>
      have hst : e.status = 500 := by
        cases hb : b (prompt n) with
        | exn m =>
          have h1 := congrArg Prod.fst (generate_of_exn (b := b) hb)
          rw [hx] at h1
          injection h1.symm with h1
          rw [← h1]
        | reply r =>
          by_cases hp : r.parts = []
          · have h1 := congrArg Prod.fst (generate_of_reply_empty (b := b) hb hp)
            rw [hx] at h1
            injection h1.symm with h1
            rw [← h1]
          · cases hf : hasParenPair (pyStrip r.text) with
            | true =>
              have h1 := congrArg Prod.fst (generate_of_reply_ok (b := b) hb hp hf)
              rw [hx] at h1
              exact absurd h1.symm (fun hcc => Except.noConfusion hcc)
            | false =>
              have h1 := congrArg Prod.fst (generate_of_reply_bad (b := b) hb hp hf)
              rw [hx] at h1
              injection h1.symm with h1
              rw [← h1]
      intro hc
      simp only [Except.map] at hc
      injection hc with hc
      rw [hc] at hst
      exact absurd hst (by decide)

def backendOkC10 : Backend := fun _ => .reply ⟨["山（サン）"], "山（サン）"⟩

/-- Witness for C10 at the three-space name. -/
theorem whitespace_name_reaches_backend_witness :
    (create_new_name backendOkC10 ⟨"   "⟩).2 = [prompt "   "] ∧
    (create_new_name backendOkC10 ⟨"   "⟩).1 ≠ .error ⟨400, invalidInputDetail⟩ ∧
    prompt "   " = promptHead ++ "   " ++ promptMid ++ "   " ++ promptTail :=
  whitespace_name_reaches_backend backendOkC10 "   " (by decide) (by decide)
